import Mathlib

/-!
Shallow embedding of the MCP filesystem-usage example pair:
a server (`mcp-server-example.py`) exposing three tools
(`health`, `get_disk_usage`, `get_detailed_disk_info`) and a
straight-line HTTP client (`mcp-client-example.py`) that exercises them.

OS-query results (`psutil.disk_partitions`, `psutil.disk_usage`,
`psutil.disk_io_counters`) are modelled as an explicit environment;
Python exceptions become explicit `Except` / outcome values.
-/

namespace McpExample

/-- One entry of `psutil.disk_partitions()`. -/
structure Partition where
  device : String
  mountpoint : String
  fstype : String
  opts : String
deriving DecidableEq

/-- Result of `psutil.disk_usage(mountpoint)`: byte counts and a percentage.
`percent` is a CPython float; the embedding carries it at exact rational
precision. -/
structure Usage where
  total : Nat
  used : Nat
  free : Nat
  percent : ℚ
deriving DecidableEq

/-- Outcome of one OS query: a value, a raised `PermissionError`, or any
other raised exception (carrying its message). -/
inductive QueryResult (α : Type) where
  | ok (a : α)
  | permissionError
  | otherError (msg : String)
deriving DecidableEq

/-- `true` exactly when the outcome is one the handlers' `try/except
PermissionError` blocks do not re-raise. -/
def QueryResult.caught : QueryResult α → Bool
  | .otherError _ => false
  | _ => true

/-- The named tuple returned by `psutil.disk_io_counters()`. -/
structure IoCounters where
  read_count : Nat
  write_count : Nat
  read_bytes : Nat
  write_bytes : Nat
  read_time : Nat
  write_time : Nat
deriving DecidableEq

/-- Outcome of `psutil.disk_io_counters()`: `ok none` models a `None`
return, `exn` models a raised exception. -/
inductive IoOutcome where
  | ok (c : Option IoCounters)
  | exn (msg : String)
deriving DecidableEq

/-- The OS state the server handlers observe at call time. `usage` is
keyed by mountpoint, exactly as `psutil.disk_usage(partition.mountpoint)`
is invoked in the source. -/
structure Env where
  partitions : List Partition
  usage : String → QueryResult Usage
  disk_io : IoOutcome

/-- A `types.TextContent(type="text", text=...)` block. -/
structure ContentBlock where
  type : String
  text : String
deriving DecidableEq

/-- Response envelope: exactly one of `result` / `error` is populated by
the transport (spec section 3); `respond` below establishes this. -/
structure Response where
  result : Option (List ContentBlock)
  error : Option String
deriving DecidableEq

/-- Python `"sep".join(lst)`. -/
def joinSep (sep : String) : List String → String
  | [] => ""
  | [x] => x
  | x :: y :: xs => x ++ sep ++ joinSep sep (y :: xs)

/-- The list of fractional-digit characters produced by CPython
fixed-point formatting: exactly `d` decimal digits of `m`, zero-padded,
most significant first (`m` is taken mod `10 ^ d` by the caller). -/
def fracDigitsChars (d m : Nat) : List Char :=
  match d with
  | 0 => []
  | Nat.succ d' => fracDigitsChars d' (m / 10) ++ [Char.ofNat (48 + m % 10)]

/-- Model of the CPython format spec `:.df` applied to `q`, at exact
rational precision: round `q * 10 ^ d` to the nearest integer (ties in the
source depend on the binary double; the model breaks them upward) and
print with exactly `d` digits after the decimal point. -/
def fmtFixed (d : Nat) (q : ℚ) : String :=
  let n : Int := round (q * (10 : ℚ) ^ d)
  let sign : String := if n < 0 then "-" else ""
  let m : Nat := n.natAbs
  if d = 0 then sign ++ toString m
  else sign ++ toString (m / 10 ^ d) ++ "." ++ String.mk (fracDigitsChars d (m % 10 ^ d))

/-- The exact rational value that `fmtFixed d q` displays: its digit
string denotes `round (q * 10 ^ d) / 10 ^ d`. -/
def fmtValue (d : Nat) (q : ℚ) : ℚ :=
  ((round (q * (10 : ℚ) ^ d) : ℤ) : ℚ) / 10 ^ d

/-- The per-partition success entry built by `get_disk_usage`
(server lines 54-63). -/
def okEntry (p : Partition) (u : Usage) : String :=
  "Device: " ++ p.device ++ "\n" ++
  "Mountpoint: " ++ p.mountpoint ++ "\n" ++
  "Filesystem: " ++ p.fstype ++ "\n" ++
  "Total: " ++ fmtFixed 2 ((u.total : ℚ) / 1024 ^ 3) ++ " GB\n" ++
  "Used: " ++ fmtFixed 2 ((u.used : ℚ) / 1024 ^ 3) ++ " GB\n" ++
  "Free: " ++ fmtFixed 2 ((u.free : ℚ) / 1024 ^ 3) ++ " GB\n" ++
  "Usage: " ++ fmtFixed 1 u.percent ++ "%\n" ++
  String.mk (List.replicate 40 '-')

/-- The per-partition `PermissionError` entry built by `get_disk_usage`
(server lines 66-72). -/
def deniedEntry (p : Partition) : String :=
  "Device: " ++ p.device ++ "\n" ++
  "Mountpoint: " ++ p.mountpoint ++ "\n" ++
  "Filesystem: " ++ p.fstype ++ "\n" ++
  "Status: Permission denied\n" ++
  String.mk (List.replicate 40 '-')

/-- The loop body of `get_disk_usage` (server lines 51-72): per partition,
`try: psutil.disk_usage(...)` appending `okEntry`, `except
PermissionError:` appending `deniedEntry`; any other exception propagates
and aborts the whole call. -/
def diskUsageEntries (q : String → QueryResult Usage) : List Partition → Except String (List String)
  | [] => Except.ok []
  | p :: ps =>
    match q p.mountpoint with
    | .ok u => Except.map (fun rest => okEntry p u :: rest) (diskUsageEntries q ps)
    | .permissionError => Except.map (fun rest => deniedEntry p :: rest) (diskUsageEntries q ps)
    | .otherError msg => Except.error msg

/-- `get_disk_usage` (server lines 47-75). -/
def get_disk_usage (env : Env) : Except String (List ContentBlock) :=
  match diskUsageEntries env.usage env.partitions with
  | .error e => Except.error e
  | .ok entries =>
      Except.ok [⟨"text", "Disk Usage Information:\n\n" ++ joinSep "\n" entries⟩]

/-- The partition header of `get_detailed_disk_info` (server lines 84-89). -/
def partHeader (p : Partition) : String :=
  "Device: " ++ p.device ++ "\n" ++
  "Mountpoint: " ++ p.mountpoint ++ "\n" ++
  "Filesystem: " ++ p.fstype ++ "\n" ++
  "Options: " ++ p.opts

/-- The per-partition usage detail of `get_detailed_disk_info`
(server lines 93-97). -/
def usageDetail (u : Usage) : String :=
  "  Total: " ++ fmtFixed 2 ((u.total : ℚ) / 1024 ^ 3) ++ " GB\n" ++
  "  Used: " ++ fmtFixed 2 ((u.used : ℚ) / 1024 ^ 3) ++ " GB (" ++
    fmtFixed 1 u.percent ++ "%)\n" ++
  "  Free: " ++ fmtFixed 2 ((u.free : ℚ) / 1024 ^ 3) ++ " GB\n"

/-- The partition loop of `get_detailed_disk_info` (server lines 83-100):
header always appended, then `try` usage / `except PermissionError`, then
an empty line; any other exception propagates. -/
def detailedPartitionEntries (q : String → QueryResult Usage) : List Partition → Except String (List String)
  | [] => Except.ok []
  | p :: ps =>
    match q p.mountpoint with
    | .ok u =>
        Except.map (fun rest => partHeader p :: usageDetail u :: "" :: rest)
          (detailedPartitionEntries q ps)
    | .permissionError =>
        Except.map (fun rest => partHeader p :: "  Status: Permission denied" :: "" :: rest)
          (detailedPartitionEntries q ps)
    | .otherError msg => Except.error msg

/-- The I/O-counter detail of `get_detailed_disk_info` (server lines
107-114). -/
def ioDetail (c : IoCounters) : String :=
  "Read Count: " ++ toString c.read_count ++ "\n" ++
  "Write Count: " ++ toString c.write_count ++ "\n" ++
  "Read Bytes: " ++ fmtFixed 2 ((c.read_bytes : ℚ) / 1024 ^ 2) ++ " MB\n" ++
  "Write Bytes: " ++ fmtFixed 2 ((c.write_bytes : ℚ) / 1024 ^ 2) ++ " MB\n" ++
  "Read Time: " ++ toString c.read_time ++ " ms\n" ++
  "Write Time: " ++ toString c.write_time ++ " ms"

/-- The disk I/O statistics section of `get_detailed_disk_info`
(server lines 102-118): the whole query sits in a `try/except Exception`,
and a `None` return yields the "No disk I/O statistics available" line. -/
def ioSection (r : IoOutcome) : List String :=
  "=== Disk I/O Statistics ===" ::
    match r with
    | .ok (some c) => [ioDetail c]
    | .ok none => ["No disk I/O statistics available"]
    | .exn msg => ["Error getting disk I/O statistics: " ++ msg]

/-- `get_detailed_disk_info` (server lines 77-121). -/
def get_detailed_disk_info (env : Env) : Except String (List ContentBlock) :=
  match detailedPartitionEntries env.usage env.partitions with
  | .error e => Except.error e
  | .ok parts =>
      Except.ok
        [⟨"text",
          joinSep "\n" ("=== Disk Partitions ===" :: parts ++ ioSection env.disk_io)⟩]

set_option linter.unusedVariables false in
/-- The dispatcher `call_tool` (server lines 36-45): exact-name dispatch;
the unmatched branch raises `ValueError(f"Unknown tool: {name}")`.
`arguments` is accepted but never read by any branch. -/
def call_tool (env : Env) (name : String) (arguments : List (String × String)) :
    Except String (List ContentBlock) :=
  if name = "get_disk_usage" then get_disk_usage env
  else if name = "get_detailed_disk_info" then get_detailed_disk_info env
  else if name = "health" then Except.ok [⟨"text", "Server is healthy and running"⟩]
  else Except.error ("Unknown tool: " ++ name)

/-- The MCP transport wraps a handler return into the `result` variant and
a raised exception into the `error` variant; exactly one is populated
(spec section 3). -/
def respond (env : Env) (name : String) (arguments : List (String × String)) : Response :=
  match call_tool env name arguments with
  | .ok blocks => ⟨some blocks, none⟩
  | .error e => ⟨none, some e⟩

/-- A tool descriptor's `inputSchema` object. -/
structure InputSchema where
  type : String
  properties : List (String × String)
  required : List String
deriving DecidableEq

/-- A `types.Tool` descriptor. -/
structure Tool where
  name : String
  description : String
  inputSchema : InputSchema
deriving DecidableEq

/-- `list_tools` (server lines 123-154). -/
def list_tools : List Tool :=
  [⟨"health", "Health check endpoint", ⟨"object", [], []⟩⟩,
   ⟨"get_disk_usage", "Get disk usage information for all mounted filesystems",
     ⟨"object", [], []⟩⟩,
   ⟨"get_detailed_disk_info",
     "Get detailed disk information including partitions and usage statistics",
     ⟨"object", [], []⟩⟩]

/-- The fixed registry of operation names, in descriptor order. -/
def registryNames : List String := list_tools.map (fun t => t.name)

/-- Number of characters strictly after the last `.` of `s` (the whole
string when no `.` occurs). -/
def decimalsAfterDot (s : String) : Nat :=
  (s.data.reverse.takeWhile (fun c => c != '.')).length

/-- The entry `get_disk_usage` appends for one partition, as a function of
the query outcome (the `otherError` case is never reached when every
outcome is caught). -/
def entryOf (p : Partition) : QueryResult Usage → String
  | .ok u => okEntry p u
  | _ => deniedEntry p

/-- The three lines `get_detailed_disk_info` appends for one partition, as
a function of the query outcome. -/
def detailedEntriesOf (p : Partition) : QueryResult Usage → List String
  | .ok u => [partHeader p, usageDetail u, ""]
  | _ => [partHeader p, "  Status: Permission denied", ""]

/-! ### The client (Request Driver), `mcp-client-example.py` -/

/-- One JSON-RPC request body built by the client (client lines 30-38,
57-65, 102-110, 147-152). -/
structure ClientRequest where
  jsonrpc : String
  id : Nat
  method : String
  paramsName : Option String
  paramsArguments : Option (List (String × String))
deriving DecidableEq

/-- The fixed ordered sequence of requests the client script posts
(client lines 24-152). -/
def clientRequests : List ClientRequest :=
  [⟨"2.0", 1, "tools/call", some "health", some []⟩,
   ⟨"2.0", 2, "tools/call", some "get_disk_usage", some []⟩,
   ⟨"2.0", 3, "tools/call", some "get_detailed_disk_info", some []⟩,
   ⟨"2.0", 4, "tools/list", none, none⟩]

/-- What one `client.post` produces: an HTTP response (any status, any
body) or a raised exception (connection failure etc.). -/
inductive Outcome where
  | http (status : Nat) (body : Response)
  | exn (msg : String)
deriving DecidableEq

/-- `true` exactly when the transport returned an HTTP response rather
than raising. -/
def Outcome.isHttp : Outcome → Bool
  | .http _ _ => true
  | .exn _ => false

/-- The client's straight-line run (client lines 19-177): every post and
its result handling sit inside one `try`; a raised exception from a post
jumps to the single outer `except` (line 174) and no later request is
sent, while any HTTP response — success or failure status, any body — is
reported and execution falls through to the next request. -/
def driverGo (f : ClientRequest → Outcome) : List ClientRequest → List (ClientRequest × Outcome)
  | [] => []
  | r :: rs =>
    match f r with
    | .exn m => [(r, Outcome.exn m)]
    | .http s b => (r, Outcome.http s b) :: driverGo f rs

/-- The requests the client actually sends, each paired with the outcome
it observed and reported. -/
def runDriver (f : ClientRequest → Outcome) : List (ClientRequest × Outcome) :=
  driverGo f clientRequests

/-! ### Concrete witness data -/

def pRoot : Partition := ⟨"/dev/sda1", "/", "ext4", "rw"⟩

def pSnap : Partition := ⟨"/dev/loop0", "/snap", "squashfs", "ro"⟩

def uRoot : Usage := ⟨2 ^ 31, 2 ^ 30, 2 ^ 30, 50⟩

/-- One accessible mount, one permission-denied mount. -/
def envMixed : Env :=
  ⟨[pRoot, pSnap],
   fun m => if m = "/" then .ok uRoot else .permissionError,
   .ok none⟩

/-- A mount whose usage query raises a non-`PermissionError` exception. -/
def envOther : Env := ⟨[pRoot], fun _ => .otherError "boom", .ok none⟩

/-- The I/O-counters query raises. -/
def envIoErr : Env := ⟨[pSnap], fun _ => .permissionError, .exn "io down"⟩

/-- Transport outcome: the very first post raises (connection refused). -/
def connFailFirst : ClientRequest → Outcome :=
  fun r => if r.id = 1 then Outcome.exn "connection refused"
           else Outcome.http 200 ⟨some [⟨"text", "ok"⟩], none⟩

/-- Transport outcome: every post gets an HTTP 500 with an error body. -/
def allHttp500 : ClientRequest → Outcome :=
  fun _ => Outcome.http 500 ⟨none, some "Internal Server Error"⟩

/-- Transport outcome: every post gets an HTTP 200 success body. -/
def allHttp200 : ClientRequest → Outcome :=
  fun _ => Outcome.http 200 ⟨some [⟨"text", "ok"⟩], none⟩

/-! ### Helper lemmas -/

theorem data_append (a b : String) : (a ++ b).data = a.data ++ b.data := rfl

theorem sub_of_mem_joinSep {s : String} (sep : String) {l : List String} (h : s ∈ l) :
    s.data <:+: (joinSep sep l).data := by
  induction l with
  | nil => cases h
  | cons x xs ih =>
    cases h with
    | head =>
      cases xs with
      | nil => exact ⟨[], [], by simp [joinSep]⟩
      | cons y ys =>
        exact ⟨[], (sep ++ joinSep sep (y :: ys)).data, by
          simp [joinSep, data_append]⟩
    | tail _ h' =>
      cases xs with
      | nil => cases h'
      | cons y ys =>
        obtain ⟨pre, suf, hps⟩ := ih h'
        exact ⟨(x ++ sep).data ++ pre, suf, by
          simp [joinSep, data_append, ← hps]⟩

theorem sub_extend_left (a : String) {s t : String} (h : s.data <:+: t.data) :
    s.data <:+: (a ++ t).data := by
  obtain ⟨pre, suf, hps⟩ := h
  exact ⟨a.data ++ pre, suf, by simp [data_append, ← hps]⟩

theorem fracDigitsChars_length (d m : Nat) : (fracDigitsChars d m).length = d := by
  induction d generalizing m with
  | zero => rfl
  | succ d ih => simp [fracDigitsChars, ih]

theorem digit_ne_dot (m : Nat) : (Char.ofNat (48 + m % 10) != '.') = true := by
  have h : m % 10 < 10 := Nat.mod_lt _ (by norm_num)
  revert h
  generalize m % 10 = r
  intro h
  interval_cases r <;> decide

theorem fracDigitsChars_ne_dot (d m : Nat) :
    ∀ c ∈ fracDigitsChars d m, (c != '.') = true := by
  induction d generalizing m with
  | zero => intro c hc; cases hc
  | succ d ih =>
    intro c hc
    simp only [fracDigitsChars, List.mem_append, List.mem_singleton] at hc
    rcases hc with hc | rfl
    · exact ih _ c hc
    · exact digit_ne_dot m

theorem takeWhile_append_stop (p : Char → Bool) (l₁ l₂ : List Char) (x : Char)
    (h₁ : ∀ c ∈ l₁, p c = true) (hx : p x = false) :
    (l₁ ++ x :: l₂).takeWhile p = l₁ := by
  induction l₁ with
  | nil => simp [List.takeWhile_cons, hx]
  | cons a l ih =>
    simp only [List.cons_append, List.takeWhile_cons, h₁ a (by simp), if_true]
    rw [ih (fun c hc => h₁ c (by simp [hc]))]

theorem decimalsAfterDot_fmtFixed (d : Nat) (hd : d ≠ 0) (q : ℚ) :
    decimalsAfterDot (fmtFixed d q) = d := by
  have hdata : (fmtFixed d q).data =
      ((if round (q * (10 : ℚ) ^ d) < 0 then "-" else "") ++
        toString ((round (q * (10 : ℚ) ^ d)).natAbs / 10 ^ d)).data ++
      '.' :: fracDigitsChars d ((round (q * (10 : ℚ) ^ d)).natAbs % 10 ^ d) := by
    simp only [fmtFixed, if_neg hd, data_append]
    simp [String.mk]
  unfold decimalsAfterDot
  rw [hdata, List.reverse_append]
  have hrev : ('.' :: fracDigitsChars d ((round (q * (10 : ℚ) ^ d)).natAbs % 10 ^ d)).reverse =
      (fracDigitsChars d ((round (q * (10 : ℚ) ^ d)).natAbs % 10 ^ d)).reverse ++ ['.'] := by
    simp
  rw [hrev, List.append_assoc, List.singleton_append,
    takeWhile_append_stop _ _ _ '.'
      (fun c hc => fracDigitsChars_ne_dot d _ c (List.mem_reverse.mp hc)) (by decide),
    List.length_reverse, fracDigitsChars_length]

theorem diskUsageEntries_caught (q : String → QueryResult Usage) (ps : List Partition)
    (h : ∀ p ∈ ps, (q p.mountpoint).caught = true) :
    diskUsageEntries q ps = Except.ok (ps.map fun p => entryOf p (q p.mountpoint)) := by
  induction ps with
  | nil => rfl
  | cons p ps ih =>
    have hp := h p (by simp)
    have hrest := ih (fun r hr => h r (by simp [hr]))
    cases hq : q p.mountpoint with
    | ok u => simp [diskUsageEntries, hq, hrest, entryOf, Except.map]
    | permissionError => simp [diskUsageEntries, hq, hrest, entryOf, Except.map]
    | otherError m => rw [hq] at hp; simp [QueryResult.caught] at hp

theorem detailedPartitionEntries_caught (q : String → QueryResult Usage) (ps : List Partition)
    (h : ∀ p ∈ ps, (q p.mountpoint).caught = true) :
    detailedPartitionEntries q ps =
      Except.ok ((ps.map fun p => detailedEntriesOf p (q p.mountpoint)).flatten) := by
  induction ps with
  | nil => rfl
  | cons p ps ih =>
    have hp := h p (by simp)
    have hrest := ih (fun r hr => h r (by simp [hr]))
    cases hq : q p.mountpoint with
    | ok u => simp [detailedPartitionEntries, hq, hrest, detailedEntriesOf, Except.map]
    | permissionError => simp [detailedPartitionEntries, hq, hrest, detailedEntriesOf, Except.map]
    | otherError m => rw [hq] at hp; simp [QueryResult.caught] at hp

theorem round_scaled_close (s q : ℚ) (hs : 0 < s) :
    |((round (q * s) : ℤ) : ℚ) / s - q| ≤ 1 / (2 * s) := by
  have h := abs_sub_round (q * s)
  have hrw : ((round (q * s) : ℤ) : ℚ) / s - q =
      -((q * s - ((round (q * s) : ℤ) : ℚ)) / s) := by
    field_simp
    ring
  rw [hrw, abs_neg, abs_div, abs_of_pos hs, div_le_div_iff₀ hs (by positivity)]
  nlinarith [abs_nonneg (q * s - ((round (q * s) : ℤ) : ℚ))]

theorem driverGo_all_http (f : ClientRequest → Outcome) (rs : List ClientRequest)
    (h : ∀ r ∈ rs, (f r).isHttp = true) :
    driverGo f rs = rs.map fun r => (r, f r) := by
  induction rs with
  | nil => rfl
  | cons r rs ih =>
    have hr := h r (by simp)
    cases hf : f r with
    | exn m => rw [hf] at hr; simp [Outcome.isHttp] at hr
    | http s b => simp [driverGo, hf, ih (fun x hx => h x (by simp [hx]))]

theorem diskUsageEntries_uncaught (q : String → QueryResult Usage) (ps : List Partition)
    (h : ∃ p ∈ ps, ∃ msg, q p.mountpoint = QueryResult.otherError msg) :
    ∃ e, diskUsageEntries q ps = Except.error e := by
  induction ps with
  | nil => obtain ⟨p, hp, _⟩ := h; cases hp
  | cons p ps ih =>
    cases hq : q p.mountpoint with
    | otherError m => exact ⟨m, by simp [diskUsageEntries, hq]⟩
    | ok u =>
      obtain ⟨p₀, hp₀, msg, hmsg⟩ := h
      rcases List.mem_cons.mp hp₀ with rfl | hmem
      · rw [hq] at hmsg; cases hmsg
      · obtain ⟨e, he⟩ := ih ⟨p₀, hmem, msg, hmsg⟩
        exact ⟨e, by simp [diskUsageEntries, hq, he, Except.map]⟩
    | permissionError =>
      obtain ⟨p₀, hp₀, msg, hmsg⟩ := h
      rcases List.mem_cons.mp hp₀ with rfl | hmem
      · rw [hq] at hmsg; cases hmsg
      · obtain ⟨e, he⟩ := ih ⟨p₀, hmem, msg, hmsg⟩
        exact ⟨e, by simp [diskUsageEntries, hq, he, Except.map]⟩

theorem detailedPartitionEntries_uncaught (q : String → QueryResult Usage) (ps : List Partition)
    (h : ∃ p ∈ ps, ∃ msg, q p.mountpoint = QueryResult.otherError msg) :
    ∃ e, detailedPartitionEntries q ps = Except.error e := by
  induction ps with
  | nil => obtain ⟨p, hp, _⟩ := h; cases hp
  | cons p ps ih =>
    cases hq : q p.mountpoint with
    | otherError m => exact ⟨m, by simp [detailedPartitionEntries, hq]⟩
    | ok u =>
      obtain ⟨p₀, hp₀, msg, hmsg⟩ := h
      rcases List.mem_cons.mp hp₀ with rfl | hmem
      · rw [hq] at hmsg; cases hmsg
      · obtain ⟨e, he⟩ := ih ⟨p₀, hmem, msg, hmsg⟩
        exact ⟨e, by simp [detailedPartitionEntries, hq, he, Except.map]⟩
    | permissionError =>
      obtain ⟨p₀, hp₀, msg, hmsg⟩ := h
      rcases List.mem_cons.mp hp₀ with rfl | hmem
      · rw [hq] at hmsg; cases hmsg
      · obtain ⟨e, he⟩ := ih ⟨p₀, hmem, msg, hmsg⟩
        exact ⟨e, by simp [detailedPartitionEntries, hq, he, Except.map]⟩

/-! ### Claim theorems -/

/-- Claim C1: for every operation name outside the fixed registry,
`call_tool` fails with the unknown-tool error carrying the requested name
and the response envelope has its error variant populated and its success
variant absent; for every name in the registry the dispatcher routes to
the corresponding handler, so the unknown-tool branch is not taken. -/
theorem call_tool_unknown_operation (env : Env) (name : String)
    (args : List (String × String)) :
    (name ∉ registryNames →
      call_tool env name args = Except.error ("Unknown tool: " ++ name) ∧
      respond env name args = ⟨none, some ("Unknown tool: " ++ name)⟩) ∧
    (name = "health" →
      call_tool env name args = Except.ok [⟨"text", "Server is healthy and running"⟩]) ∧
    (name = "get_disk_usage" → call_tool env name args = get_disk_usage env) ∧
    (name = "get_detailed_disk_info" →
      call_tool env name args = get_detailed_disk_info env) := by
  refine ⟨?_, ?_, ?_, ?_⟩
  · intro h
    simp only [registryNames, list_tools, List.map, List.mem_cons,
      List.not_mem_nil, or_false] at h
    push_neg at h
    obtain ⟨h1, h2, h3⟩ := h
    exact ⟨by simp [call_tool, h1, h2, h3], by simp [respond, call_tool, h1, h2, h3]⟩
  · rintro rfl; rfl
  · rintro rfl; rfl
  · rintro rfl; rfl

theorem call_tool_unknown_operation_witness :
    ("bogus" ∉ registryNames ∧
      call_tool envOther "bogus" [] = Except.error ("Unknown tool: " ++ "bogus") ∧
      respond envOther "bogus" [] = ⟨none, some ("Unknown tool: " ++ "bogus")⟩) ∧
    ("health" ∈ registryNames ∧
      call_tool envOther "health" [] =
        Except.ok [⟨"text", "Server is healthy and running"⟩]) :=
  ⟨⟨by decide, (call_tool_unknown_operation envOther "bogus" []).1 (by decide)⟩,
   ⟨by decide, (call_tool_unknown_operation envOther "health" []).2.1 rfl⟩⟩

/-- Claim C2: whenever every per-mount `disk_usage` outcome is either a
success or a `PermissionError` (in particular when every one is a
`PermissionError`), `get_disk_usage` returns a success payload — one text
block — in which each denied mount contributes its "Status: Permission
denied" entry and each accessible mount contributes its usage entry. -/
theorem get_disk_usage_permission_resilient (env : Env)
    (h : ∀ p ∈ env.partitions, (env.usage p.mountpoint).caught = true) :
    ∃ txt, get_disk_usage env = Except.ok [⟨"text", txt⟩] ∧
      (∀ p ∈ env.partitions, env.usage p.mountpoint = QueryResult.permissionError →
        (deniedEntry p).data <:+: txt.data) ∧
      (∀ p ∈ env.partitions, ∀ u, env.usage p.mountpoint = QueryResult.ok u →
        (okEntry p u).data <:+: txt.data) := by
  refine ⟨"Disk Usage Information:\n\n" ++
    joinSep "\n" (env.partitions.map fun p => entryOf p (env.usage p.mountpoint)),
    ?_, ?_, ?_⟩
  · simp [get_disk_usage, diskUsageEntries_caught env.usage env.partitions h]
  · intro p hp hperm
    exact sub_extend_left _ (sub_of_mem_joinSep "\n"
      (List.mem_map.mpr ⟨p, hp, by rw [hperm]; rfl⟩))
  · intro p hp u hu
    exact sub_extend_left _ (sub_of_mem_joinSep "\n"
      (List.mem_map.mpr ⟨p, hp, by rw [hu]; rfl⟩))

theorem get_disk_usage_permission_resilient_witness :
    (∀ p ∈ envMixed.partitions, (envMixed.usage p.mountpoint).caught = true) ∧
    (∃ txt, get_disk_usage envMixed = Except.ok [⟨"text", txt⟩] ∧
      (∀ p ∈ envMixed.partitions, envMixed.usage p.mountpoint = QueryResult.permissionError →
        (deniedEntry p).data <:+: txt.data) ∧
      (∀ p ∈ envMixed.partitions, ∀ u, envMixed.usage p.mountpoint = QueryResult.ok u →
        (okEntry p u).data <:+: txt.data)) :=
  ⟨by decide, get_disk_usage_permission_resilient envMixed (by decide)⟩

/-- Claim C3, counterexample: a registered tool name whose per-mount query
fails with a non-`PermissionError` exception makes the handler fail — the
response carries the error variant, not a success payload, refuting the
claim that once the registry lookup succeeds the operation always
succeeds under any kind of per-mount query failure. -/
theorem uncaught_mount_error_fails_call :
    "get_disk_usage" ∈ registryNames ∧
    call_tool envOther "get_disk_usage" [] = Except.error "boom" ∧
    respond envOther "get_disk_usage" [] = ⟨none, some "boom"⟩ := by
  refine ⟨by decide, rfl, rfl⟩

/-- Claim C3, amended: for every registered tool name, if every per-mount
query failure is a `PermissionError` (the only exception class the
handlers catch), the handler returns a success payload — a single text
block — in which each such failure is rendered as its per-entry diagnostic
line (the `deniedEntry` block for `get_disk_usage`, the
"  Status: Permission denied" line for `get_detailed_disk_info`); whereas
if any per-mount query raises a different exception class, the disk
handlers fail and the response carries the error variant, success absent. -/
theorem registry_call_succeeds_when_caught (env : Env) (name : String)
    (args : List (String × String)) (hname : name ∈ registryNames) :
    ((∀ p ∈ env.partitions, (env.usage p.mountpoint).caught = true) →
      ∃ txt, call_tool env name args = Except.ok [⟨"text", txt⟩] ∧
        respond env name args = ⟨some [⟨"text", txt⟩], none⟩ ∧
        (name = "get_disk_usage" →
          ∀ p ∈ env.partitions, env.usage p.mountpoint = QueryResult.permissionError →
            (deniedEntry p).data <:+: txt.data) ∧
        (name = "get_detailed_disk_info" →
          ∀ p ∈ env.partitions, env.usage p.mountpoint = QueryResult.permissionError →
            ("  Status: Permission denied" : String).data <:+: txt.data)) ∧
    ((name = "get_disk_usage" ∨ name = "get_detailed_disk_info") →
      (∃ p ∈ env.partitions, ∃ msg, env.usage p.mountpoint = QueryResult.otherError msg) →
      ∃ e, call_tool env name args = Except.error e ∧
        respond env name args = ⟨none, some e⟩) := by
  simp only [registryNames, list_tools, List.map, List.mem_cons,
    List.not_mem_nil, or_false] at hname
  rcases hname with rfl | rfl | rfl
  · constructor
    · intro _
      refine ⟨"Server is healthy and running", rfl, rfl, ?_, ?_⟩
      · intro heq; exact absurd heq (by decide)
      · intro heq; exact absurd heq (by decide)
    · intro hor
      rcases hor with heq | heq <;> exact absurd heq (by decide)
  · have hc : call_tool env "get_disk_usage" args = get_disk_usage env := rfl
    constructor
    · intro h
      have hg : get_disk_usage env = Except.ok
          [⟨"text", "Disk Usage Information:\n\n" ++
            joinSep "\n" (env.partitions.map fun p => entryOf p (env.usage p.mountpoint))⟩] := by
        simp [get_disk_usage, diskUsageEntries_caught env.usage env.partitions h]
      refine ⟨_, by rw [hc, hg], by simp [respond, hc, hg], ?_, ?_⟩
      · intro _ p hp hperm
        exact sub_extend_left _ (sub_of_mem_joinSep "\n"
          (List.mem_map.mpr ⟨p, hp, by rw [hperm]; rfl⟩))
      · intro heq; exact absurd heq (by decide)
    · intro _ hex
      obtain ⟨e, he⟩ := diskUsageEntries_uncaught env.usage env.partitions hex
      exact ⟨e, by rw [hc]; simp [get_disk_usage, he],
        by simp [respond, hc, get_disk_usage, he]⟩
  · have hc : call_tool env "get_detailed_disk_info" args = get_detailed_disk_info env := rfl
    constructor
    · intro h
      have hg : get_detailed_disk_info env = Except.ok
          [⟨"text", joinSep "\n" ("=== Disk Partitions ===" ::
            ((env.partitions.map fun p => detailedEntriesOf p (env.usage p.mountpoint)).flatten ++
              ioSection env.disk_io))⟩] := by
        simp [get_detailed_disk_info,
          detailedPartitionEntries_caught env.usage env.partitions h]
      refine ⟨_, by rw [hc, hg], by simp [respond, hc, hg], ?_, ?_⟩
      · intro heq; exact absurd heq (by decide)
      · intro _ p hp hperm
        refine sub_of_mem_joinSep "\n" ?_
        refine List.mem_cons_of_mem _ (List.mem_append_left _ ?_)
        refine List.mem_flatten.mpr ⟨detailedEntriesOf p (env.usage p.mountpoint),
          List.mem_map.mpr ⟨p, hp, rfl⟩, ?_⟩
        rw [hperm]; simp [detailedEntriesOf]
    · intro _ hex
      obtain ⟨e, he⟩ := detailedPartitionEntries_uncaught env.usage env.partitions hex
      exact ⟨e, by rw [hc]; simp [get_detailed_disk_info, he],
        by simp [respond, hc, get_detailed_disk_info, he]⟩

theorem registry_call_succeeds_when_caught_witness :
    ("get_detailed_disk_info" ∈ registryNames ∧
     (∀ p ∈ envMixed.partitions, (envMixed.usage p.mountpoint).caught = true) ∧
     (∃ txt, call_tool envMixed "get_detailed_disk_info" [] = Except.ok [⟨"text", txt⟩] ∧
       respond envMixed "get_detailed_disk_info" [] = ⟨some [⟨"text", txt⟩], none⟩ ∧
       ("get_detailed_disk_info" = "get_disk_usage" →
         ∀ p ∈ envMixed.partitions, envMixed.usage p.mountpoint = QueryResult.permissionError →
           (deniedEntry p).data <:+: txt.data) ∧
       ("get_detailed_disk_info" = "get_detailed_disk_info" →
         ∀ p ∈ envMixed.partitions, envMixed.usage p.mountpoint = QueryResult.permissionError →
           ("  Status: Permission denied" : String).data <:+: txt.data))) ∧
    ("get_disk_usage" ∈ registryNames ∧
     (∃ p ∈ envOther.partitions, ∃ msg,
       envOther.usage p.mountpoint = QueryResult.otherError msg) ∧
     (∃ e, call_tool envOther "get_disk_usage" [] = Except.error e ∧
       respond envOther "get_disk_usage" [] = ⟨none, some e⟩)) :=
  ⟨⟨by decide, by decide,
    (registry_call_succeeds_when_caught envMixed "get_detailed_disk_info" [] (by decide)).1
      (by decide)⟩,
   ⟨by decide, ⟨pRoot, by decide, "boom", rfl⟩,
    (registry_call_succeeds_when_caught envOther "get_disk_usage" [] (by decide)).2
      (Or.inl rfl) ⟨pRoot, by decide, "boom", rfl⟩⟩⟩

/-- Claim C4: `list_tools` returns exactly 3 descriptors, in the fixed
order health, get_disk_usage, get_detailed_disk_info, each with a
non-empty name, a non-empty description, and an input schema with an
empty properties set. -/
theorem list_tools_descriptors :
    list_tools.length = 3 ∧
    list_tools.map (fun t => t.name) =
      ["health", "get_disk_usage", "get_detailed_disk_info"] ∧
    (list_tools.all fun t =>
      !(t.name == "") && !(t.description == "") && t.inputSchema.properties.isEmpty) = true := by
  decide

/-- Claim C5: invoking the operation named "health" with any argument
mapping yields a success payload of exactly one content block of type
"text" whose text is exactly "Server is healthy and running". -/
theorem health_call_success (env : Env) (args : List (String × String)) :
    respond env "health" args =
      ⟨some [⟨"text", "Server is healthy and running"⟩], none⟩ := rfl

/-- Claim C6: in the disk-usage and detailed-disk-info entries, the
total/used/free byte counts are rendered as `fmtFixed 2` of the byte count
divided by `1024 ^ 3` (binary gigabytes, two decimal places) and the usage
percentage as `fmtFixed 1` (one decimal place), uniformly in both
outputs; `fmtFixed 2` always prints exactly two digits after the decimal
point, `fmtFixed 1` exactly one, and the value displayed differs from the
exact quotient by at most half a unit in the last place. -/
theorem numeric_formatting_uniform (p : Partition) (u : Usage) (q : ℚ) :
    ("Total: " ++ fmtFixed 2 ((u.total : ℚ) / 1024 ^ 3) ++ " GB\n").data <:+:
      (okEntry p u).data ∧
    ("Used: " ++ fmtFixed 2 ((u.used : ℚ) / 1024 ^ 3) ++ " GB\n").data <:+:
      (okEntry p u).data ∧
    ("Free: " ++ fmtFixed 2 ((u.free : ℚ) / 1024 ^ 3) ++ " GB\n").data <:+:
      (okEntry p u).data ∧
    ("Usage: " ++ fmtFixed 1 u.percent ++ "%\n").data <:+: (okEntry p u).data ∧
    ("  Total: " ++ fmtFixed 2 ((u.total : ℚ) / 1024 ^ 3) ++ " GB\n").data <:+:
      (usageDetail u).data ∧
    ("  Used: " ++ fmtFixed 2 ((u.used : ℚ) / 1024 ^ 3) ++ " GB (" ++
      fmtFixed 1 u.percent ++ "%)\n").data <:+: (usageDetail u).data ∧
    ("  Free: " ++ fmtFixed 2 ((u.free : ℚ) / 1024 ^ 3) ++ " GB\n").data <:+:
      (usageDetail u).data ∧
    decimalsAfterDot (fmtFixed 2 q) = 2 ∧
    decimalsAfterDot (fmtFixed 1 q) = 1 ∧
    |fmtValue 2 q - q| ≤ 1 / 200 ∧
    |fmtValue 1 q - q| ≤ 1 / 20 := by
  refine ⟨?_, ?_, ?_, ?_, ?_, ?_, ?_,
    decimalsAfterDot_fmtFixed 2 (by norm_num) q,
    decimalsAfterDot_fmtFixed 1 (by norm_num) q, ?_, ?_⟩
  · exact ⟨("Device: " ++ p.device ++ "\n" ++ "Mountpoint: " ++ p.mountpoint ++ "\n" ++
      "Filesystem: " ++ p.fstype ++ "\n").data,
      ("Used: " ++ fmtFixed 2 ((u.used : ℚ) / 1024 ^ 3) ++ " GB\n" ++
        "Free: " ++ fmtFixed 2 ((u.free : ℚ) / 1024 ^ 3) ++ " GB\n" ++
        "Usage: " ++ fmtFixed 1 u.percent ++ "%\n" ++
        String.mk (List.replicate 40 '-')).data, by simp [okEntry, data_append]⟩
  · exact ⟨("Device: " ++ p.device ++ "\n" ++ "Mountpoint: " ++ p.mountpoint ++ "\n" ++
      "Filesystem: " ++ p.fstype ++ "\n" ++
      "Total: " ++ fmtFixed 2 ((u.total : ℚ) / 1024 ^ 3) ++ " GB\n").data,
      ("Free: " ++ fmtFixed 2 ((u.free : ℚ) / 1024 ^ 3) ++ " GB\n" ++
        "Usage: " ++ fmtFixed 1 u.percent ++ "%\n" ++
        String.mk (List.replicate 40 '-')).data, by simp [okEntry, data_append]⟩
  · exact ⟨("Device: " ++ p.device ++ "\n" ++ "Mountpoint: " ++ p.mountpoint ++ "\n" ++
      "Filesystem: " ++ p.fstype ++ "\n" ++
      "Total: " ++ fmtFixed 2 ((u.total : ℚ) / 1024 ^ 3) ++ " GB\n" ++
      "Used: " ++ fmtFixed 2 ((u.used : ℚ) / 1024 ^ 3) ++ " GB\n").data,
      ("Usage: " ++ fmtFixed 1 u.percent ++ "%\n" ++
        String.mk (List.replicate 40 '-')).data, by simp [okEntry, data_append]⟩
  · exact ⟨("Device: " ++ p.device ++ "\n" ++ "Mountpoint: " ++ p.mountpoint ++ "\n" ++
      "Filesystem: " ++ p.fstype ++ "\n" ++
      "Total: " ++ fmtFixed 2 ((u.total : ℚ) / 1024 ^ 3) ++ " GB\n" ++
      "Used: " ++ fmtFixed 2 ((u.used : ℚ) / 1024 ^ 3) ++ " GB\n" ++
      "Free: " ++ fmtFixed 2 ((u.free : ℚ) / 1024 ^ 3) ++ " GB\n").data,
      (String.mk (List.replicate 40 '-')).data, by simp [okEntry, data_append]⟩
  · exact ⟨[], ("  Used: " ++ fmtFixed 2 ((u.used : ℚ) / 1024 ^ 3) ++ " GB (" ++
      fmtFixed 1 u.percent ++ "%)\n" ++
      "  Free: " ++ fmtFixed 2 ((u.free : ℚ) / 1024 ^ 3) ++ " GB\n").data,
      by simp [usageDetail, data_append]⟩
  · exact ⟨("  Total: " ++ fmtFixed 2 ((u.total : ℚ) / 1024 ^ 3) ++ " GB\n").data,
      ("  Free: " ++ fmtFixed 2 ((u.free : ℚ) / 1024 ^ 3) ++ " GB\n").data,
      by simp [usageDetail, data_append]⟩
  · exact ⟨("  Total: " ++ fmtFixed 2 ((u.total : ℚ) / 1024 ^ 3) ++ " GB\n" ++
      "  Used: " ++ fmtFixed 2 ((u.used : ℚ) / 1024 ^ 3) ++ " GB (" ++
      fmtFixed 1 u.percent ++ "%)\n").data, [], by simp [usageDetail, data_append]⟩
  · have h := round_scaled_close 100 q (by norm_num)
    have he : |fmtValue 2 q - q| ≤ 1 / (2 * 100) := by
      simpa [fmtValue, show ((10 : ℚ) ^ 2) = 100 by norm_num] using h
    exact le_trans he (by norm_num)
  · have h := round_scaled_close 10 q (by norm_num)
    have he : |fmtValue 1 q - q| ≤ 1 / (2 * 10) := by
      simpa [fmtValue, show ((10 : ℚ) ^ 1) = 10 by norm_num] using h
    exact le_trans he (by norm_num)

/-- Claim C9: `call_tool` never reads the argument mapping — for every
tool name (registered or not) and any two argument mappings it produces
identical results given the same OS-query outcomes. -/
theorem call_tool_ignores_arguments (env : Env) (name : String)
    (args₁ args₂ : List (String × String)) :
    call_tool env name args₁ = call_tool env name args₂ := rfl

/-- Claim C10: provided the per-partition loop completed (every per-mount
failure was a caught `PermissionError`), the disk I/O statistics section
never fails the operation: the output is a success payload containing the
"=== Disk I/O Statistics ===" section; a raised I/O-counters query adds
the "Error getting disk I/O statistics: <message>" line and a `None`
return adds the "No disk I/O statistics available" line. -/
theorem detailed_io_section_resilient (env : Env)
    (h : ∀ p ∈ env.partitions, (env.usage p.mountpoint).caught = true) :
    ∃ txt, get_detailed_disk_info env = Except.ok [⟨"text", txt⟩] ∧
      ("=== Disk I/O Statistics ===" : String).data <:+: txt.data ∧
      (∀ msg, env.disk_io = IoOutcome.exn msg →
        ("Error getting disk I/O statistics: " ++ msg).data <:+: txt.data) ∧
      (env.disk_io = IoOutcome.ok none →
        ("No disk I/O statistics available" : String).data <:+: txt.data) := by
  refine ⟨joinSep "\n" ("=== Disk Partitions ===" ::
      ((env.partitions.map fun p => detailedEntriesOf p (env.usage p.mountpoint)).flatten ++
        ioSection env.disk_io)), ?_, ?_, ?_, ?_⟩
  · simp [get_detailed_disk_info,
      detailedPartitionEntries_caught env.usage env.partitions h]
  · exact sub_of_mem_joinSep "\n" (by simp [ioSection])
  · intro msg hio
    exact sub_of_mem_joinSep "\n" (by simp [ioSection, hio])
  · intro hio
    exact sub_of_mem_joinSep "\n" (by simp [ioSection, hio])

theorem detailed_io_section_resilient_witness :
    (∀ p ∈ envIoErr.partitions, (envIoErr.usage p.mountpoint).caught = true) ∧
    (∃ txt, get_detailed_disk_info envIoErr = Except.ok [⟨"text", txt⟩] ∧
      ("=== Disk I/O Statistics ===" : String).data <:+: txt.data ∧
      (∀ msg, envIoErr.disk_io = IoOutcome.exn msg →
        ("Error getting disk I/O statistics: " ++ msg).data <:+: txt.data) ∧
      (envIoErr.disk_io = IoOutcome.ok none →
        ("No disk I/O statistics available" : String).data <:+: txt.data)) :=
  ⟨by decide, detailed_io_section_resilient envIoErr (by decide)⟩

/-- Claim C7, counterexample: when the first post raises a connection
failure, the client's single outer exception handler ends the run — only
the first request is ever sent, so a transport-level connection failure
does not let the driver proceed to the remaining operations. -/
theorem driver_connection_failure_aborts :
    (runDriver connFailFirst).map Prod.fst ≠ clientRequests ∧
    (runDriver connFailFirst).length = 1 ∧
    clientRequests.length = 4 := by decide

/-- Claim C7, amended: for every operation in the driver's fixed sequence,
if the transport returns an HTTP response — of any status, including
non-success statuses, and with any body, including error-variant bodies —
the driver reports that outcome and still proceeds to send every remaining
operation; a connection failure (a raised transport exception), however,
aborts the rest of the run via the single outer exception handler. -/
theorem driver_continues_on_http_failures (f : ClientRequest → Outcome)
    (h : ∀ r ∈ clientRequests, (f r).isHttp = true) :
    runDriver f = clientRequests.map fun r => (r, f r) :=
  driverGo_all_http f clientRequests h

theorem driver_continues_on_http_failures_witness :
    (∀ r ∈ clientRequests, (allHttp500 r).isHttp = true) ∧
    runDriver allHttp500 = clientRequests.map fun r => (r, allHttp500 r) :=
  ⟨by decide, driver_continues_on_http_failures allHttp500 (by decide)⟩

/-- Claim C8: the driver's fixed sequence consists of exactly one request
per pair — health, get_disk_usage, get_detailed_disk_info (via
tools/call), then tools/list, in that order — the correlation ids it
assigns are pairwise distinct, and when no post raises, the run sends
exactly that sequence. -/
theorem driver_request_sequence (f : ClientRequest → Outcome)
    (h : ∀ r ∈ clientRequests, (f r).isHttp = true) :
    clientRequests.map (fun r => (r.method, r.paramsName)) =
      [("tools/call", some "health"), ("tools/call", some "get_disk_usage"),
       ("tools/call", some "get_detailed_disk_info"), ("tools/list", none)] ∧
    (clientRequests.map fun r => r.id).Nodup ∧
    (runDriver f).map Prod.fst = clientRequests := by
  refine ⟨by decide, by decide, ?_⟩
  rw [runDriver, driverGo_all_http f clientRequests h]
  simp [Function.comp_def]

theorem driver_request_sequence_witness :
    (∀ r ∈ clientRequests, (allHttp200 r).isHttp = true) ∧
    (clientRequests.map (fun r => (r.method, r.paramsName)) =
      [("tools/call", some "health"), ("tools/call", some "get_disk_usage"),
       ("tools/call", some "get_detailed_disk_info"), ("tools/list", none)] ∧
    (clientRequests.map fun r => r.id).Nodup ∧
    (runDriver allHttp200).map Prod.fst = clientRequests) :=
  ⟨by decide, driver_request_sequence allHttp200 (by decide)⟩

end McpExample
